import Mathlib

set_option maxRecDepth 100000

/-!
Verification of the response-cache plugin
(`packages/apollo-server-plugin-response-cache/src/ApolloServerPluginResponseCache.ts`):
cache-key derivation and the session-aware read/write policy.

The embedding models JavaScript values that can appear in a cache key or a
response as a `Json` inductive (objects keep their property insertion order,
as `JSON.stringify` does), implements `JSON.stringify` and SHA-256 over it,
and renders the plugin's per-request listener (`executor` read path,
`willSendResponse` write path) as pure state-passing functions.
-/

namespace ResponseCache

/-- A JSON-representable JavaScript value. Object properties are an ordered
association list: `JSON.stringify` serializes properties in insertion order,
so the order is part of the value's identity for cache-key purposes.
Numbers are modelled as integers (the plugin itself only ever puts the
numeric `SessionMode` enum in a key; caller-supplied `variables`/`extra`
are arbitrary JSON, of which the integer fragment is modelled). -/
inductive Json where
  | null : Json
  | bool (b : Bool) : Json
  | num (n : Int) : Json
  | str (s : String) : Json
  | arr (elems : List Json) : Json
  | obj (fields : List (String × Json)) : Json

/-- Lower-case hex digit, as produced by `Buffer.toString('hex')` and by
`JSON.stringify`'s `\u00XX` escapes. -/
def hexChar : Nat → Char
  | 0 => '0' | 1 => '1' | 2 => '2' | 3 => '3' | 4 => '4' | 5 => '5' | 6 => '6'
  | 7 => '7' | 8 => '8' | 9 => '9' | 10 => 'a' | 11 => 'b' | 12 => 'c' | 13 => 'd'
  | 14 => 'e' | _ => 'f'

/-- Two lower-case hex digits of a byte. -/
def hexByte (n : Nat) : List Char :=
  [hexChar (n / 16 % 16), hexChar (n % 16)]

/-- How `JSON.stringify` escapes one character inside a string literal:
`"` and `\` get a backslash, the named control escapes are used for
backspace, tab, newline, form feed and carriage return, any other control
character becomes `\u00XX`, and everything else is passed through. -/
def escJsonChar (c : Char) : List Char :=
  if c = '"' then ['\\', '"']
  else if c = '\\' then ['\\', '\\']
  else if c.toNat = 8 then ['\\', 'b']
  else if c.toNat = 9 then ['\\', 't']
  else if c.toNat = 10 then ['\\', 'n']
  else if c.toNat = 12 then ['\\', 'f']
  else if c.toNat = 13 then ['\\', 'r']
  else if c.toNat < 32 then ['\\', 'u', '0', '0'] ++ hexByte c.toNat
  else [c]

/-- A JSON string literal: quotes around the escaped characters. -/
def quoteJson (s : String) : String :=
  ⟨'"' :: (s.data.map escJsonChar).flatten ++ ['"']⟩

mutual

/-- `JSON.stringify` (no replacer, no spacing): object properties in
insertion order, no whitespace. -/
def Json.stringify : Json → String
  | .null => "null"
  | .bool true => "true"
  | .bool false => "false"
  | .num n => toString n
  | .str s => quoteJson s
  | .arr elems => "[" ++ stringifyElems elems ++ "]"
  | .obj fields => "\x7b" ++ stringifyFields fields ++ "\x7d"

/-- Comma-separated serialization of array elements. -/
def stringifyElems : List Json → String
  | [] => ""
  | [x] => Json.stringify x
  | x :: y :: rest => Json.stringify x ++ "," ++ stringifyElems (y :: rest)

/-- Comma-separated serialization of object properties, insertion order. -/
def stringifyFields : List (String × Json) → String
  | [] => ""
  | [(k, v)] => quoteJson k ++ ":" ++ Json.stringify v
  | (k, v) :: f :: rest =>
      quoteJson k ++ ":" ++ Json.stringify v ++ "," ++ stringifyFields (f :: rest)

end

/-! ## SHA-256

`sha(s)` in the source is `createHash('sha256').update(s).digest('hex')`:
the string's UTF-8 bytes hashed with SHA-256 (FIPS 180-4) and rendered as
64 lower-case hex characters. Words are `Nat`s kept below `2^32` by
explicit reduction `% 2^32`. -/

/-- Truncate to a 32-bit word. -/
def w32 (n : Nat) : Nat := n % 4294967296

/-- 32-bit right rotation (input assumed below `2^32`). -/
def rotr32 (n x : Nat) : Nat := w32 ((x >>> n) ||| (x <<< (32 - n)))

/-- FIPS 180-4 `Σ0`. -/
def bigSigma0 (x : Nat) : Nat := rotr32 2 x ^^^ rotr32 13 x ^^^ rotr32 22 x

/-- FIPS 180-4 `Σ1`. -/
def bigSigma1 (x : Nat) : Nat := rotr32 6 x ^^^ rotr32 11 x ^^^ rotr32 25 x

/-- FIPS 180-4 `σ0`. -/
def smallSigma0 (x : Nat) : Nat := rotr32 7 x ^^^ rotr32 18 x ^^^ (x >>> 3)

/-- FIPS 180-4 `σ1`. -/
def smallSigma1 (x : Nat) : Nat := rotr32 17 x ^^^ rotr32 19 x ^^^ (x >>> 10)

/-- FIPS 180-4 `Ch(e,f,g)`; the complement is xor with `2^32 - 1`. -/
def chFn (x y z : Nat) : Nat := (x &&& y) ^^^ ((x ^^^ 4294967295) &&& z)

/-- FIPS 180-4 `Maj(a,b,c)`. -/
def majFn (x y z : Nat) : Nat :=
  Nat.xor (Nat.xor (x &&& y) (x &&& z)) (y &&& z)

/-- The eight 32-bit working variables / hash words of SHA-256. -/
structure Hash8 where
  a : Nat
  b : Nat
  c : Nat
  d : Nat
  e : Nat
  f : Nat
  g : Nat
  h : Nat

/-- SHA-256 initial hash value `H(0)`. -/
def sha256InitialHash : Hash8 :=
  ⟨1779033703, 3144134277, 1013904242,
   2773480762, 1359893119, 2600822924,
   528734635, 1541459225⟩

/-- The 64 SHA-256 round constants. -/
def sha256K : List Nat :=
  [1116352408, 1899447441, 3049323471, 3921009573, 961987163,
   1508970993, 2453635748, 2870763221, 3624381080, 310598401,
   607225278, 1426881987, 1925078388, 2162078206, 2614888103,
   3248222580, 3835390401, 4022224774, 264347078, 604807628,
   770255983, 1249150122, 1555081692, 1996064986, 2554220882,
   2821834349, 2952996808, 3210313671, 3336571891, 3584528711,
   113926993, 338241895, 666307205, 773529912, 1294757372,
   1396182291, 1695183700, 1986661051, 2177026350, 2456956037,
   2730485921, 2820302411, 3259730800, 3345764771, 3516065817,
   3600352804, 4094571909, 275423344, 430227734, 506948616,
   659060556, 883997877, 958139571, 1322822218, 1537002063,
   1747873779, 1955562222, 2024104815, 2227730452, 2361852424,
   2428436474, 2756734187, 3204031479, 3329325298]

/-- One SHA-256 compression round. -/
def sha256Round (s : Hash8) (k w : Nat) : Hash8 :=
  let t1 := w32 (s.h + bigSigma1 s.e + chFn s.e s.f s.g + k + w)
  let t2 := w32 (bigSigma0 s.a + majFn s.a s.b s.c)
  ⟨w32 (t1 + t2), s.a, s.b, s.c, w32 (s.d + t1), s.e, s.f, s.g⟩

/-- Extend the 16 words of a block to the 64-word message schedule. -/
def extendWords (ws : List Nat) : List Nat :=
  (List.range 48).foldl
    (fun acc _ =>
      let n := acc.length
      acc ++ [w32 (smallSigma1 (acc.getD (n - 2) 0) + acc.getD (n - 7) 0 +
                   smallSigma0 (acc.getD (n - 15) 0) + acc.getD (n - 16) 0)])
    ws

/-- Split a list into chunks of `n` elements, with an explicit fuel
argument (the list's length suffices) to make termination structural. -/
def chunksGo (n : Nat) : List Nat → Nat → List (List Nat)
  | [], _ => []
  | _ :: _, 0 => []
  | l, fuel + 1 => l.take n :: chunksGo n (l.drop n) fuel

/-- Split a list into chunks of `n` elements (`n ≥ 1`). -/
def chunks (n : Nat) (l : List Nat) : List (List Nat) := chunksGo n l l.length

/-- Big-endian word from a list of bytes. -/
def beWord (bytes : List Nat) : Nat := bytes.foldl (fun acc b => acc * 256 + b) 0

/-- 64-bit big-endian byte encoding. -/
def be64 (n : Nat) : List Nat :=
  [n / 72057594037927936 % 256, n / 281474976710656 % 256,
   n / 1099511627776 % 256, n / 4294967296 % 256,
   n / 16777216 % 256, n / 65536 % 256, n / 256 % 256, n % 256]

/-- SHA-256 padding: a `0x80` byte, zeros to 56 mod 64, then the bit
length as a 64-bit big-endian integer. -/
def padMessage (msg : List Nat) : List Nat :=
  let zeros := (119 - msg.length % 64) % 64
  msg ++ 128 :: List.replicate zeros 0 ++ be64 (8 * msg.length)

/-- Compress one 64-byte block into the running hash. -/
def compressBlock (s : Hash8) (block : List Nat) : Hash8 :=
  let ws := extendWords ((chunks 4 block).map beWord)
  let t := (sha256K.zip ws).foldl (fun s kw => sha256Round s kw.1 kw.2) s
  ⟨w32 (s.a + t.a), w32 (s.b + t.b), w32 (s.c + t.c), w32 (s.d + t.d),
   w32 (s.e + t.e), w32 (s.f + t.f), w32 (s.g + t.g), w32 (s.h + t.h)⟩

/-- SHA-256 of a byte sequence, as the eight final hash words. -/
def sha256 (msg : List Nat) : Hash8 :=
  (chunks 64 (padMessage msg)).foldl compressBlock sha256InitialHash

/-- Eight lower-case hex digits of a 32-bit word, most significant first. -/
def word32Hex (x : Nat) : List Char :=
  [hexChar (x / 268435456 % 16), hexChar (x / 16777216 % 16),
   hexChar (x / 1048576 % 16), hexChar (x / 65536 % 16),
   hexChar (x / 4096 % 16), hexChar (x / 256 % 16),
   hexChar (x / 16 % 16), hexChar (x % 16)]

/-- UTF-8 encoding of one character. -/
def utf8EncodeChar (c : Char) : List Nat :=
  let n := c.toNat
  if n < 128 then [n]
  else if n < 2048 then [192 ||| (n >>> 6), 128 ||| (n &&& 63)]
  else if n < 65536 then
    [224 ||| (n >>> 12), 128 ||| ((n >>> 6) &&& 63), 128 ||| (n &&& 63)]
  else
    [240 ||| (n >>> 18), 128 ||| ((n >>> 12) &&& 63),
     128 ||| ((n >>> 6) &&& 63), 128 ||| (n &&& 63)]

/-- UTF-8 bytes of a string, as `Hash.update` consumes them. -/
def utf8Bytes (s : String) : List Nat := (s.data.map utf8EncodeChar).flatten

/-- `digest('hex')`: the eight hash words as 64 lower-case hex characters. -/
def digestHex (st : Hash8) : String :=
  ⟨word32Hex st.a ++ word32Hex st.b ++ word32Hex st.c ++ word32Hex st.d ++
   word32Hex st.e ++ word32Hex st.f ++ word32Hex st.g ++ word32Hex st.h⟩

/-- `sha` from the source: `createHash('sha256').update(s).digest('hex')` —
SHA-256 of the string's UTF-8 bytes as 64 lower-case hex characters. -/
def sha (s : String) : String := digestHex (sha256 (utf8Bytes s))

/-- FIPS 180-4 test vector: the digest of `"abc"`, validating the SHA-256
embedding. -/
theorem sha_abc :
    sha "abc" = "ba7816bf8f01cfea414140de5dae2223b00361a396177a9cb410ff61f20015ad" := by
  decide

/-- FIPS 180-4 test vector: the digest of the empty string. -/
theorem sha_empty :
    sha "" = "e3b0c44298fc1c149afbf4c8996fb92427ae41e4649b934ca495991b7852b855" := by
  decide

/-- FIPS 180-4 two-block test vector, exercising padding across a block
boundary. -/
theorem sha_two_blocks :
    sha "abcdbcdecdefdefgefghfghighijhijkijkljklmklmnlmnomnopnopq" =
      "248d6a61d20638b8e5c026930c3e6039a33ce45964ff2167f6ecedd419db06c1" := by
  decide

/-! ## Plugin data model

Types from `ApolloServerPluginResponseCache.ts` and
`requestPipelineAPI.ts`: the session modes, cache keys, hook options,
request context and the key-value store interface. -/

/-- The `SessionMode` enum of the plugin. As a TypeScript numeric enum its
members are the numbers 0, 1, 2, which is how they appear in
`JSON.stringify` output. -/
inductive SessionMode where
  | NoSession
  | Private
  | AuthenticatedPublic
deriving DecidableEq

/-- The JSON value of a `SessionMode` member: its numeric enum value. -/
def SessionMode.toJson : SessionMode → Json
  | .NoSession => .num 0
  | .Private => .num 1
  | .AuthenticatedPublic => .num 2

/-- Modelled from the spec: `CacheScope` is imported from
`apollo-server-core/dist/requestPipelineAPI`, whose compiled module is not
among the sources here; per the spec a cache policy's scope is the
two-valued enum `scope: enum\x7bPublic, Private\x7d`. -/
inductive CacheScope where
  | Public
  | Private
deriving DecidableEq

/-- The `overallCachePolicy` attached to a request context by the
computation: scope and max-age (seconds, a JavaScript number; the plugin
compares it against 0). -/
structure CachePolicy where
  scope : CacheScope
  maxAge : Int

/-- `BaseCacheKey`: the request-identity part of a cache key, set once per
request by the read path. `variables` is an ordered property list, as
`JSON.stringify` sees it. -/
structure BaseCacheKey where
  documentText : String
  operationName : Option String
  «variables» : List (String × Json)
  extra : Json

/-- `ContextualCacheKey`: the session part of a cache key. `sessionId` is
an optional property: at every call site it is either absent or a present
string, never an explicit null. -/
structure ContextualCacheKey where
  sessionMode : SessionMode
  sessionId : Option String := none

/-- `string | null` as a JSON property value. -/
def optionStrToJson : Option String → Json
  | none => Json.null
  | some s => Json.str s

/-- The four properties of a `BaseCacheKey` object, in declaration order
(`documentText`, `operationName`, `variables`, `extra`), which is the
insertion order `JSON.stringify` serializes. -/
def baseCacheKeyFieldsJson (b : BaseCacheKey) : List (String × Json) :=
  [("documentText", Json.str b.documentText),
   ("operationName", optionStrToJson b.operationName),
   ("variables", Json.obj b.«variables»),
   ("extra", b.extra)]

/-- The properties of a `ContextualCacheKey` object. The call sites write
either `\x7b sessionMode \x7d` or `\x7b sessionId, sessionMode \x7d`, so when
`sessionId` is present it precedes `sessionMode` in insertion order. -/
def contextualCacheKeyFieldsJson (c : ContextualCacheKey) : List (String × Json) :=
  match c.sessionId with
  | some sid => [("sessionId", Json.str sid), ("sessionMode", c.sessionMode.toJson)]
  | none => [("sessionMode", c.sessionMode.toJson)]

/-- The object `\x7b ...baseCacheKey, ...contextualCacheKeyFields \x7d` built
at both call sites of `cacheKeyString`: the base properties followed by
the contextual ones (the property names are disjoint, so the spread
concatenates). -/
def cacheKeyJson (b : BaseCacheKey) (c : ContextualCacheKey) : Json :=
  Json.obj (baseCacheKeyFieldsJson b ++ contextualCacheKeyFieldsJson c)

/-- `cacheKeyString(key) = sha(JSON.stringify(key))`. -/
def cacheKeyString (b : BaseCacheKey) (c : ContextualCacheKey) : String :=
  sha (Json.stringify (cacheKeyJson b c))

/-- `ValueOrPromise<T>`: a hook may return its value synchronously or as a
promise; `promise v` stands for a promise that resolves to `v`. -/
inductive ValueOrPromise (α : Type) where
  | value (v : α)
  | promise (v : α)

/-- `await` on a `ValueOrPromise`: the resolved value either way. -/
def ValueOrPromise.await {α : Type} : ValueOrPromise α → α
  | .value v => v
  | .promise v => v

/-- JavaScript truthiness of a `ValueOrPromise<boolean>` used *without*
`await` (as the plugin does with `shouldReadFromCache` and
`shouldWriteToCache`): a synchronous boolean is its own truthiness, while
a promise object is always truthy, whatever it resolves to. -/
def ValueOrPromise.truthy : ValueOrPromise Bool → Bool
  | .value b => b
  | .promise _ => true

/-- The operation type of the parsed request (`operation.operation`). -/
inductive OperationType where
  | query
  | mutation
  | subscription
deriving DecidableEq

/-- `GraphQLRequest`: the part the plugin reads — `variables`, which may
be absent (`undefined`). -/
structure GraphQLRequest where
  «variables» : Option (List (String × Json))

/-- `GraphQLResponse`: `data` and `errors` are optional; `extensions` and
transport metadata are carried along but (as proved below) never
persisted. An absent field is `none`; note a *present but empty* errors
array is still truthy in the source's `response.errors ||` test. -/
structure GraphQLResponse where
  data : Option (List (String × Json))
  errors : Option (List Json)
  extensions : Option Json

/-- The slice of `GraphQLRequestContext` the plugin consumes, at both
lifecycle points (`response`/`overallCachePolicy` are only meaningful at
`willSendResponse` time). -/
structure GraphQLRequestContext where
  request : GraphQLRequest
  documentText : String
  operationName : Option String
  operation : OperationType
  response : GraphQLResponse
  overallCachePolicy : Option CachePolicy

/-- The plugin `Options`: four optional hooks. (The optional `cache`
override only chooses which store the prefixed wrapper sits on, so the
model carries the chosen store separately.) -/
structure Options where
  sessionId : Option (GraphQLRequestContext → ValueOrPromise (Option String)) := none
  extraCacheKeyData : Option (GraphQLRequestContext → ValueOrPromise Json) := none
  shouldReadFromCache : Option (GraphQLRequestContext → ValueOrPromise Bool) := none
  shouldWriteToCache : Option (GraphQLRequestContext → ValueOrPromise Bool) := none

/-- The underlying `KeyValueCache`, a string-keyed store. The plugin
writes `JSON.stringify(response)` strings and reads them back through
`JSON.parse`; the model identifies a stored string with its parse, so
values are `Json`. Later `set`s shadow earlier ones. -/
def Store : Type := List (String × Json)

/-- `get`: the most recently `set` value for the key, if any. -/
def Store.get : Store → String → Option Json
  | [], _ => none
  | (k', v) :: rest, k => if k' = k then some v else Store.get rest k

/-- `set`: record a value for the key (shadowing earlier entries). -/
def Store.set (s : Store) (k : String) (v : Json) : Store := (k, v) :: s

/-- `isGraphQLQuery`: `operation.operation === 'query'`. -/
def isGraphQLQuery (rc : GraphQLRequestContext) : Bool :=
  rc.operation = OperationType.query

/-- The plugin prefixes every key with `'fqc:'` through
`PrefixingKeyValueCache` before it reaches the underlying store. -/
def prefixedKey (k : String) : String := "fqc:" ++ k

/-! ## Per-request listener

The listener closes over two mutable variables, `sessionId` and
`baseCacheKey`, both initially null; the model passes them explicitly.
`executor` is the read path, `willSendResponse` the write path. -/

/-- The closure state `(sessionId, baseCacheKey)`, both initially null. -/
structure RequestState where
  sessionId : Option String := none
  baseCacheKey : Option BaseCacheKey := none

/-- The session id the executor stores: `await options.sessionId(rc)` when
the hook is configured, otherwise the variable keeps its initial null. -/
def resolvedSessionId (opts : Options) (rc : GraphQLRequestContext) : Option String :=
  match opts.sessionId with
  | some hook => (hook rc).await
  | none => none

/-- The extra cache key data: `await options.extraCacheKeyData(rc)` when
configured, otherwise the initial `null`. -/
def resolvedExtraCacheKeyData (opts : Options) (rc : GraphQLRequestContext) : Json :=
  match opts.extraCacheKeyData with
  | some hook => (hook rc).await
  | none => Json.null

/-- The `baseCacheKey` object the executor builds: document text,
operation name, a defensive shallow copy of `request.variables || \x7b\x7d`,
and the extra data. -/
def computedBaseCacheKey (opts : Options) (rc : GraphQLRequestContext) : BaseCacheKey :=
  { documentText := rc.documentText
    operationName := rc.operationName
    «variables» := rc.request.«variables».getD []
    extra := resolvedExtraCacheKeyData opts rc }

/-- The read-skip test `options.shouldReadFromCache &&
!options.shouldReadFromCache(requestContext)`. The hook's return value is
*not* awaited: its JavaScript truthiness is negated directly, so a
promise (always truthy) never causes a skip. -/
def skipsRead (opts : Options) (rc : GraphQLRequestContext) : Bool :=
  match opts.shouldReadFromCache with
  | some hook => !(hook rc).truthy
  | none => false

/-- The write-skip test `options.shouldWriteToCache &&
!options.shouldWriteToCache(requestContext)`; like the read test, the
hook's value is used without `await`. -/
def skipsWrite (opts : Options) (rc : GraphQLRequestContext) : Bool :=
  match opts.shouldWriteToCache with
  | some hook => !(hook rc).truthy
  | none => false

/-- `cacheGet(contextualCacheKeyFields)`: combine the per-request base key
with the contextual fields, hash, read through the `fqc:` prefix, and
`JSON.parse` a present value. A missing entry yields null; a stored JSON
`null` parses to null as well, so both collapse to `none`. -/
def cacheGet (store : Store) (base : BaseCacheKey) (c : ContextualCacheKey) : Option Json :=
  match store.get (prefixedKey (cacheKeyString base c)) with
  | none => none
  | some Json.null => none
  | some v => some v

/-- What one run of `executor` produces: the closure state it leaves
behind, the store keys it read in order, and its return value (`null`
becomes `none`). -/
structure ExecutorOutcome where
  sessionId : Option String
  baseCacheKey : Option BaseCacheKey
  reads : List String
  result : Option Json

/-- The `executor` lifecycle hook (read path). Non-query operations
return null immediately, leaving the closure state at its initial nulls.
Otherwise the session and extra hooks are awaited, `baseCacheKey` is
populated, and — unless the unawaited should-read test skips — the
ordered lookups run: `NoSession` alone for a null session, else
`Private` first and `AuthenticatedPublic` only on a private miss. -/
def executor (opts : Options) (store : Store) (rc : GraphQLRequestContext) :
    ExecutorOutcome :=
  if ¬ isGraphQLQuery rc then
    { sessionId := none, baseCacheKey := none, reads := [], result := none }
  else
    let sessionId := resolvedSessionId opts rc
    let base := computedBaseCacheKey opts rc
    if skipsRead opts rc then
      { sessionId := sessionId, baseCacheKey := some base, reads := [], result := none }
    else
      match sessionId with
      | none =>
        let c : ContextualCacheKey := { sessionMode := SessionMode.NoSession }
        { sessionId := none, baseCacheKey := some base
          reads := [prefixedKey (cacheKeyString base c)]
          result := cacheGet store base c }
      | some sid =>
        let cPriv : ContextualCacheKey :=
          { sessionMode := SessionMode.Private, sessionId := some sid }
        match cacheGet store base cPriv with
        | some privateResponse =>
          { sessionId := some sid, baseCacheKey := some base
            reads := [prefixedKey (cacheKeyString base cPriv)]
            result := some privateResponse }
        | none =>
          let cAuth : ContextualCacheKey :=
            { sessionMode := SessionMode.AuthenticatedPublic }
          { sessionId := some sid, baseCacheKey := some base
            reads := [prefixedKey (cacheKeyString base cPriv),
                      prefixedKey (cacheKeyString base cAuth)]
            result := cacheGet store base cAuth }

/-- What one run of `willSendResponse` does. A `wrote` outcome carries
exactly what `cacheSetInBackground` materializes synchronously before the
background `cache.set`: the prefixed key string, the
`JSON.stringify(response)` value string, and the ttl. The two skip
constructors for a private scope distinguish the `console.warn`
misconfiguration diagnostic from the silent null-session skip. -/
inductive WriteOutcome where
  | notQuery
  | skippedByHook
  | notCacheable
  | threw
  | skippedNoSessionIdHook
  | skippedNullSession
  | wrote (key : String) (value : String) (ttlSeconds : Int)
deriving DecidableEq

/-- The `willSendResponse` lifecycle hook (write path), in source order:
the query check, the unawaited should-write test, the cacheability gate
(`response.errors || !response.data || !overallCachePolicy ||
overallCachePolicy.maxAge <= 0`), building `\x7b data: response.data \x7d`,
the base-key invariant check (throws), then scope-dependent key
selection. -/
def willSendResponse (opts : Options) (st : RequestState)
    (rc : GraphQLRequestContext) : WriteOutcome :=
  if ¬ isGraphQLQuery rc then .notQuery
  else if skipsWrite opts rc then .skippedByHook
  else if rc.response.errors.isSome then .notCacheable
  else
    match rc.response.data with
    | none => .notCacheable
    | some data =>
      match rc.overallCachePolicy with
      | none => .notCacheable
      | some overallCachePolicy =>
        if overallCachePolicy.maxAge ≤ 0 then .notCacheable
        else
          let executionResult := Json.obj [("data", Json.obj data)]
          match st.baseCacheKey with
          | none => .threw
          | some baseCacheKey =>
            if overallCachePolicy.scope = CacheScope.Private then
              match opts.sessionId with
              | none => .skippedNoSessionIdHook
              | some _ =>
                match st.sessionId with
                | none => .skippedNullSession
                | some sid =>
                  .wrote
                    (prefixedKey (cacheKeyString baseCacheKey
                      { sessionMode := SessionMode.Private, sessionId := some sid }))
                    (Json.stringify executionResult)
                    overallCachePolicy.maxAge
            else
              .wrote
                (prefixedKey (cacheKeyString baseCacheKey
                  { sessionMode :=
                      if st.sessionId = none then SessionMode.NoSession
                      else SessionMode.AuthenticatedPublic }))
                (Json.stringify executionResult)
                overallCachePolicy.maxAge

/-! ## Store and cache-key lemmas -/

/-- Reading the key just written returns the written value. -/
theorem Store.get_set_self (s : Store) (k : String) (v : Json) :
    (s.set k v).get k = some v := by
  simp [Store.set, Store.get]

/-- Reading a different key is unaffected by a write. -/
theorem Store.get_set_ne (s : Store) (k k' : String) (v : Json) (h : k ≠ k') :
    (s.set k v).get k' = s.get k' := by
  simp [Store.set, Store.get, h]

/-- A `cacheGet` under a key other than the one just written is unaffected
by the write. -/
theorem cacheGet_set_ne (store : Store) (k : String) (v : Json)
    (base : BaseCacheKey) (c : ContextualCacheKey)
    (h : k ≠ prefixedKey (cacheKeyString base c)) :
    cacheGet (Store.set store k v) base c = cacheGet store base c := by
  unfold cacheGet
  rw [Store.get_set_ne _ _ _ _ h]

/-- `string | null` maps injectively to JSON. -/
theorem optionStrToJson_inj {a b : Option String}
    (h : optionStrToJson a = optionStrToJson b) : a = b := by
  cases a <;> cases b <;> simp_all [optionStrToJson]

/-- The numeric enum encoding of `SessionMode` is injective. -/
theorem sessionModeToJson_inj {m1 m2 : SessionMode}
    (h : m1.toJson = m2.toJson) : m1 = m2 := by
  cases m1 <;> cases m2 <;> simp_all [SessionMode.toJson]

/-- The contextual property lists of two contextual keys agree only when
the keys agree (present and absent `sessionId` give lists of different
lengths; otherwise the property values pin each field). -/
theorem contextualCacheKeyFieldsJson_inj {c1 c2 : ContextualCacheKey}
    (h : contextualCacheKeyFieldsJson c1 = contextualCacheKeyFieldsJson c2) :
    c1 = c2 := by
  obtain ⟨m1, s1⟩ := c1
  obtain ⟨m2, s2⟩ := c2
  cases s1 with
  | none =>
    cases s2 with
    | none =>
      simp only [contextualCacheKeyFieldsJson, List.cons.injEq, Prod.mk.injEq,
        true_and, and_true] at h
      simp [sessionModeToJson_inj h]
    | some b => simp [contextualCacheKeyFieldsJson] at h
  | some a =>
    cases s2 with
    | none => simp [contextualCacheKeyFieldsJson] at h
    | some b =>
      simp only [contextualCacheKeyFieldsJson, List.cons.injEq, Prod.mk.injEq,
        Json.str.injEq, true_and, and_true] at h
      obtain ⟨hab, hm⟩ := h
      simp [sessionModeToJson_inj hm, hab]

/-- The structured cache-key object determines the base key and the
contextual key: `JSON.stringify`'s input already separates every field,
so two distinct cache keys can only collide at the hash, not before it. -/
theorem cacheKeyJson_inj {b1 b2 : BaseCacheKey} {c1 c2 : ContextualCacheKey}
    (h : cacheKeyJson b1 c1 = cacheKeyJson b2 c2) : b1 = b2 ∧ c1 = c2 := by
  unfold cacheKeyJson at h
  have hl : baseCacheKeyFieldsJson b1 ++ contextualCacheKeyFieldsJson c1 =
      baseCacheKeyFieldsJson b2 ++ contextualCacheKeyFieldsJson c2 := by
    simpa using h
  have hlen : (baseCacheKeyFieldsJson b1).length = (baseCacheKeyFieldsJson b2).length := by
    simp [baseCacheKeyFieldsJson]
  obtain ⟨hbase, hctx⟩ := List.append_inj hl hlen
  refine ⟨?_, contextualCacheKeyFieldsJson_inj hctx⟩
  obtain ⟨d1, o1, v1, e1⟩ := b1
  obtain ⟨d2, o2, v2, e2⟩ := b2
  simp only [baseCacheKeyFieldsJson, List.cons.injEq, Prod.mk.injEq,
    Json.str.injEq, Json.obj.injEq, and_true, true_and] at hbase
  obtain ⟨hd, ho, hv, he⟩ := hbase
  exact BaseCacheKey.mk.injEq .. ▸ ⟨hd, optionStrToJson_inj ho, hv, he⟩

/-- The store keys the executor can read for a request: one `NoSession`
key for a null session, else the `Private` and `AuthenticatedPublic`
keys. -/
def executorLookupKeys (opts : Options) (rc : GraphQLRequestContext) : List String :=
  let base := computedBaseCacheKey opts rc
  match resolvedSessionId opts rc with
  | none => [prefixedKey (cacheKeyString base { sessionMode := SessionMode.NoSession })]
  | some sid =>
      [prefixedKey (cacheKeyString base
         { sessionMode := SessionMode.Private, sessionId := some sid }),
       prefixedKey (cacheKeyString base
         { sessionMode := SessionMode.AuthenticatedPublic })]

/-- Frame lemma: a store write under a key outside the executor's lookup
keys leaves the executor's entire outcome — state, reads and result —
unchanged. -/
theorem executor_frame (opts : Options) (store : Store) (rc : GraphQLRequestContext)
    (k : String) (v : Json) (hnc : k ∉ executorLookupKeys opts rc) :
    executor opts (Store.set store k v) rc = executor opts store rc := by
  unfold executor
  by_cases hq : isGraphQLQuery rc
  · simp only [hq, not_true_eq_false, if_false]
    by_cases hs : skipsRead opts rc
    · simp [hs]
    · simp only [hs, Bool.false_eq_true, if_false]
      unfold executorLookupKeys at hnc
      cases hres : resolvedSessionId opts rc with
      | none =>
        simp only [hres] at hnc ⊢
        simp only [List.mem_singleton] at hnc
        rw [cacheGet_set_ne _ _ _ _ _ hnc]
      | some sid =>
        simp only [hres] at hnc ⊢
        simp only [List.mem_cons, List.mem_singleton, not_or] at hnc
        rw [cacheGet_set_ne _ _ _ _ _ hnc.1, cacheGet_set_ne _ _ _ _ _ hnc.2.1]
  · simp [hq]

/-! ## Claim theorems -/

/-- Claim C2: for a query request whose read path is not skipped, the
executor with a null resolved session performs exactly one lookup, under
the `NoSession` key, and returns its result; with a session id it looks
up the `Private` key first, returns a hit immediately (performing no
second read), and only on a miss reads the `AuthenticatedPublic` key and
returns that; in every case at most two store reads occur, in the order
recorded by `reads`. -/
theorem c2_lookup_algorithm (opts : Options) (store : Store)
    (rc : GraphQLRequestContext)
    (hq : isGraphQLQuery rc = true) (hread : skipsRead opts rc = false) :
    (resolvedSessionId opts rc = none →
      executor opts store rc =
        { sessionId := none
          baseCacheKey := some (computedBaseCacheKey opts rc)
          reads := [prefixedKey (cacheKeyString (computedBaseCacheKey opts rc)
                      { sessionMode := SessionMode.NoSession })]
          result := cacheGet store (computedBaseCacheKey opts rc)
                      { sessionMode := SessionMode.NoSession } })
    ∧ (∀ sid, resolvedSessionId opts rc = some sid →
        (∀ r, cacheGet store (computedBaseCacheKey opts rc)
                { sessionMode := SessionMode.Private, sessionId := some sid } = some r →
          executor opts store rc =
            { sessionId := some sid
              baseCacheKey := some (computedBaseCacheKey opts rc)
              reads := [prefixedKey (cacheKeyString (computedBaseCacheKey opts rc)
                          { sessionMode := SessionMode.Private, sessionId := some sid })]
              result := some r })
        ∧ (cacheGet store (computedBaseCacheKey opts rc)
             { sessionMode := SessionMode.Private, sessionId := some sid } = none →
          executor opts store rc =
            { sessionId := some sid
              baseCacheKey := some (computedBaseCacheKey opts rc)
              reads := [prefixedKey (cacheKeyString (computedBaseCacheKey opts rc)
                          { sessionMode := SessionMode.Private, sessionId := some sid }),
                        prefixedKey (cacheKeyString (computedBaseCacheKey opts rc)
                          { sessionMode := SessionMode.AuthenticatedPublic })]
              result := cacheGet store (computedBaseCacheKey opts rc)
                          { sessionMode := SessionMode.AuthenticatedPublic } }))
    ∧ (executor opts store rc).reads.length ≤ 2 := by
  have hnone : ∀ _ : resolvedSessionId opts rc = none, True := fun _ => trivial
  refine ⟨?_, ?_, ?_⟩
  · intro hres
    unfold executor
    rw [if_neg (by simp [hq]), if_neg (by simp [hread])]
    simp only [hres]
  · intro sid hres
    constructor
    · intro r hr
      unfold executor
      rw [if_neg (by simp [hq]), if_neg (by simp [hread])]
      simp only [hres, hr]
    · intro hr
      unfold executor
      rw [if_neg (by simp [hq]), if_neg (by simp [hread])]
      simp only [hres, hr]
  · unfold executor
    rw [if_neg (by simp [hq]), if_neg (by simp [hread])]
    cases hres : resolvedSessionId opts rc with
    | none => simp
    | some sid =>
      cases hr : cacheGet store (computedBaseCacheKey opts rc)
          { sessionMode := SessionMode.Private, sessionId := some sid } with
      | none => simp [hr]
      | some r => simp [hr]

/-- Claim C7: on a query request where the `shouldReadFromCache` hook is
supplied and returns `false` (synchronously), the executor returns null
without reading the store at all, but has nevertheless already resolved
and recorded both the session id and the base cache key, so the write
path still runs with the correct session scope. -/
theorem c7_should_read_skip (opts : Options) (store : Store)
    (rc : GraphQLRequestContext)
    (hook : GraphQLRequestContext → ValueOrPromise Bool)
    (hq : isGraphQLQuery rc = true)
    (hhook : opts.shouldReadFromCache = some hook)
    (hfalse : hook rc = ValueOrPromise.value false) :
    executor opts store rc =
      { sessionId := resolvedSessionId opts rc
        baseCacheKey := some (computedBaseCacheKey opts rc)
        reads := []
        result := none } := by
  have hskip : skipsRead opts rc = true := by
    simp [skipsRead, hhook, hfalse, ValueOrPromise.truthy]
  unfold executor
  rw [if_neg (by simp [hq]), if_pos (by simp [hskip])]

/-- Claim C10: the base cache key snapshots `request.variables` at the
moment the executor runs — the recorded base key holds exactly the
variables seen then (first conjunct) — and the write path never reads the
request's current variables: whatever they have been mutated to, a
`wrote` outcome's key is computed purely from the snapshotted per-request
state (second conjunct: the key depends only on `st.baseCacheKey` and
`st.sessionId`). -/
theorem c10_variables_snapshot (opts : Options) (store : Store)
    (st : RequestState) (rc : GraphQLRequestContext)
    (hq : isGraphQLQuery rc = true) :
    ((executor opts store rc).baseCacheKey = some
      { documentText := rc.documentText
        operationName := rc.operationName
        «variables» := rc.request.«variables».getD []
        extra := resolvedExtraCacheKeyData opts rc })
    ∧ (∀ k val ttl, willSendResponse opts st rc = WriteOutcome.wrote k val ttl →
        ∃ base, st.baseCacheKey = some base ∧
          ((∃ sid, st.sessionId = some sid ∧
             k = prefixedKey (cacheKeyString base
               { sessionMode := SessionMode.Private, sessionId := some sid }))
           ∨ k = prefixedKey (cacheKeyString base
               { sessionMode := if st.sessionId = none then SessionMode.NoSession
                                else SessionMode.AuthenticatedPublic }))) := by
  constructor
  · unfold executor
    rw [if_neg (by simp [hq])]
    by_cases hs : skipsRead opts rc
    · simp [hs, computedBaseCacheKey]
    · simp only [hs, Bool.false_eq_true, if_false]
      cases hres : resolvedSessionId opts rc with
      | none => rfl
      | some sid => split <;> first | rfl | (split <;> rfl)
  · intro k val ttl hw
    unfold willSendResponse at hw
    by_cases hq2 : isGraphQLQuery rc
    · rw [if_neg (by simp [hq2])] at hw
      by_cases hsw : skipsWrite opts rc
      · simp [hsw] at hw
      · rw [if_neg (by simp [hsw])] at hw
        by_cases herr : rc.response.errors.isSome
        · simp [herr] at hw
        · rw [if_neg herr] at hw
          cases hdata : rc.response.data with
          | none => simp [hdata] at hw
          | some d =>
            simp only [hdata] at hw
            cases hpol : rc.overallCachePolicy with
            | none => simp [hpol] at hw
            | some p =>
              simp only [hpol] at hw
              by_cases hmax : p.maxAge ≤ 0
              · simp [hmax] at hw
              · rw [if_neg hmax] at hw
                cases hbase : st.baseCacheKey with
                | none => simp [hbase] at hw
                | some base =>
                  simp only [hbase] at hw
                  refine ⟨base, rfl, ?_⟩
                  by_cases hscope : p.scope = CacheScope.Private
                  · rw [if_pos hscope] at hw
                    cases hsid : opts.sessionId with
                    | none => simp [hsid] at hw
                    | some hook =>
                      simp only [hsid] at hw
                      cases hstid : st.sessionId with
                      | none => simp [hstid] at hw
                      | some sid =>
                        simp only [hstid] at hw
                        simp only [WriteOutcome.wrote.injEq] at hw
                        exact Or.inl ⟨sid, rfl, hw.1.symm⟩
                  · rw [if_neg hscope] at hw
                    simp only [WriteOutcome.wrote.injEq] at hw
                    exact Or.inr hw.1.symm
    · simp [hq2] at hw

/-- Inversion of a successful write: a `wrote` outcome can only arise on
a query, with the should-write test passing, no `errors` field, a present
`data` field, a supplied policy with positive max-age, an established
base key, and a key/value/ttl of the scope-determined shape. Shared by
the write-path claim proofs. -/
theorem willSendResponse_wrote_inversion (opts : Options) (st : RequestState)
    (rc : GraphQLRequestContext) (k val : String) (ttl : Int)
    (hw : willSendResponse opts st rc = WriteOutcome.wrote k val ttl) :
    isGraphQLQuery rc = true ∧ skipsWrite opts rc = false ∧
    rc.response.errors = none ∧
    ∃ d, rc.response.data = some d ∧
    ∃ p, rc.overallCachePolicy = some p ∧ 0 < p.maxAge ∧ ttl = p.maxAge ∧
    val = Json.stringify (Json.obj [("data", Json.obj d)]) ∧
    ∃ base, st.baseCacheKey = some base ∧
    ((p.scope = CacheScope.Private ∧ opts.sessionId ≠ none ∧
      ∃ sid, st.sessionId = some sid ∧
        k = prefixedKey (cacheKeyString base
          { sessionMode := SessionMode.Private, sessionId := some sid })) ∨
     (p.scope ≠ CacheScope.Private ∧
        k = prefixedKey (cacheKeyString base
          { sessionMode := if st.sessionId = none then SessionMode.NoSession
                           else SessionMode.AuthenticatedPublic }))) := by
  unfold willSendResponse at hw
  by_cases hq : isGraphQLQuery rc
  · rw [if_neg (by simp [hq])] at hw
    by_cases hsw : skipsWrite opts rc
    · simp [hsw] at hw
    · rw [if_neg (by simp [hsw])] at hw
      by_cases herr : rc.response.errors.isSome
      · simp [herr] at hw
      · rw [if_neg herr] at hw
        cases hdata : rc.response.data with
        | none => simp [hdata] at hw
        | some d =>
          simp only [hdata] at hw
          cases hpol : rc.overallCachePolicy with
          | none => simp [hpol] at hw
          | some p =>
            simp only [hpol] at hw
            by_cases hmax : p.maxAge ≤ 0
            · simp [hmax] at hw
            · rw [if_neg hmax] at hw
              cases hbase : st.baseCacheKey with
              | none => simp [hbase] at hw
              | some base =>
                simp only [hbase] at hw
                refine ⟨hq, by simpa using hsw,
                  Option.not_isSome_iff_eq_none.mp herr, d, rfl, p, rfl,
                  by omega, ?_, ?_, base, rfl, ?_⟩
                · by_cases hscope : p.scope = CacheScope.Private
                  · rw [if_pos hscope] at hw
                    cases hsid : opts.sessionId with
                    | none => simp [hsid] at hw
                    | some hook =>
                      simp only [hsid] at hw
                      cases hstid : st.sessionId with
                      | none => simp [hstid] at hw
                      | some sid =>
                        simp only [hstid, WriteOutcome.wrote.injEq] at hw
                        omega
                  · rw [if_neg hscope] at hw
                    simp only [WriteOutcome.wrote.injEq] at hw
                    omega
                · by_cases hscope : p.scope = CacheScope.Private
                  · rw [if_pos hscope] at hw
                    cases hsid : opts.sessionId with
                    | none => simp [hsid] at hw
                    | some hook =>
                      simp only [hsid] at hw
                      cases hstid : st.sessionId with
                      | none => simp [hstid] at hw
                      | some sid =>
                        simp only [hstid, WriteOutcome.wrote.injEq] at hw
                        exact hw.2.1.symm
                  · rw [if_neg hscope] at hw
                    simp only [WriteOutcome.wrote.injEq] at hw
                    exact hw.2.1.symm
                · by_cases hscope : p.scope = CacheScope.Private
                  · rw [if_pos hscope] at hw
                    cases hsid : opts.sessionId with
                    | none => simp [hsid] at hw
                    | some hook =>
                      simp only [hsid] at hw
                      cases hstid : st.sessionId with
                      | none => simp [hstid] at hw
                      | some sid =>
                        simp only [hstid, WriteOutcome.wrote.injEq] at hw
                        exact Or.inl ⟨hscope, by simp [hsid], sid, rfl, hw.1.symm⟩
                  · rw [if_neg hscope] at hw
                    simp only [WriteOutcome.wrote.injEq] at hw
                    exact Or.inr ⟨hscope, hw.1.symm⟩
  · simp [hq] at hw

/-- Claim C4: a store write occurs only when the response has no `errors`
field, a present (truthy) `data` payload, a supplied cache policy, and
`maxAge > 0`; when any of these fails, no write occurs. (`response.data`
is typed as an object, so JavaScript truthiness coincides with the field
being present.) -/
theorem c4_cacheability_gate (opts : Options) (st : RequestState)
    (rc : GraphQLRequestContext) :
    (∀ k val ttl, willSendResponse opts st rc = WriteOutcome.wrote k val ttl →
      rc.response.errors = none ∧ (∃ d, rc.response.data = some d) ∧
      ∃ p, rc.overallCachePolicy = some p ∧ 0 < p.maxAge)
    ∧ ((rc.response.errors ≠ none ∨ rc.response.data = none ∨
        rc.overallCachePolicy = none ∨
        (∀ p, rc.overallCachePolicy = some p → p.maxAge ≤ 0)) →
      ∀ k val ttl, willSendResponse opts st rc ≠ WriteOutcome.wrote k val ttl) := by
  have hmain : ∀ k val ttl, willSendResponse opts st rc = WriteOutcome.wrote k val ttl →
      rc.response.errors = none ∧ (∃ d, rc.response.data = some d) ∧
      ∃ p, rc.overallCachePolicy = some p ∧ 0 < p.maxAge := by
    intro k val ttl hw
    obtain ⟨-, -, herr, d, hd, p, hp, hmax, -⟩ :=
      willSendResponse_wrote_inversion opts st rc k val ttl hw
    exact ⟨herr, ⟨d, hd⟩, p, hp, hmax⟩
  refine ⟨hmain, ?_⟩
  intro hfail k val ttl hw
  obtain ⟨herr, ⟨d, hd⟩, p, hp, hmax⟩ := hmain k val ttl hw
  rcases hfail with h | h | h | h
  · exact h herr
  · rw [hd] at h; cases h
  · rw [hp] at h; cases h
  · have := h p hp; omega

/-- Claim C6: every write persists the serialization of exactly
`\x7b data: response.data \x7d`: the stored value string is
`JSON.stringify` of that one-property object, so the response's `errors`,
`extensions` and transport metadata never reach the store. -/
theorem c6_only_data_persisted (opts : Options) (st : RequestState)
    (rc : GraphQLRequestContext) (k val : String) (ttl : Int)
    (hw : willSendResponse opts st rc = WriteOutcome.wrote k val ttl) :
    ∃ d, rc.response.data = some d ∧
      val = Json.stringify (Json.obj [("data", Json.obj d)]) ∧
      rc.response.errors = none := by
  obtain ⟨-, -, herr, d, hd, p, -, -, -, hval, -⟩ :=
    willSendResponse_wrote_inversion opts st rc k val ttl hw
  exact ⟨d, hd, hval, herr⟩

/-- Claim C5: if the write path reaches a cacheable response (query, no
should-write skip, no errors, present data, supplied policy with positive
max-age) while the per-request base cache key was never established by
the read path, it throws — the outcome is `threw`, not a `wrote`. -/
theorem c5_base_key_invariant (opts : Options) (st : RequestState)
    (rc : GraphQLRequestContext) (d : List (String × Json)) (p : CachePolicy)
    (hq : isGraphQLQuery rc = true) (hsw : skipsWrite opts rc = false)
    (herr : rc.response.errors = none) (hdata : rc.response.data = some d)
    (hpol : rc.overallCachePolicy = some p) (hmax : 0 < p.maxAge)
    (hbase : st.baseCacheKey = none) :
    willSendResponse opts st rc = WriteOutcome.threw := by
  unfold willSendResponse
  rw [if_neg (by simp [hq]), if_neg (by simp [hsw]), if_neg (by simp [herr])]
  simp only [hdata, hpol]
  rw [if_neg (by omega : ¬ p.maxAge ≤ 0)]
  simp only [hbase]

/-- Claim C3: session-mode selection for the write key of a cacheable
response. With a `Private` scope: no configured session-id hook skips the
write with the `console.warn` diagnostic; a configured hook but null
resolved session skips silently; otherwise the write key uses
`\x7b Private, sessionId \x7d`. With a `Public` scope the write proceeds
under `NoSession` for a null session and `AuthenticatedPublic`
otherwise. -/
theorem c3_write_key_selection (opts : Options) (st : RequestState)
    (rc : GraphQLRequestContext) (d : List (String × Json)) (p : CachePolicy)
    (base : BaseCacheKey)
    (hq : isGraphQLQuery rc = true) (hsw : skipsWrite opts rc = false)
    (herr : rc.response.errors = none) (hdata : rc.response.data = some d)
    (hpol : rc.overallCachePolicy = some p) (hmax : 0 < p.maxAge)
    (hbase : st.baseCacheKey = some base) :
    (p.scope = CacheScope.Private → opts.sessionId = none →
      willSendResponse opts st rc = WriteOutcome.skippedNoSessionIdHook)
    ∧ (∀ hook, p.scope = CacheScope.Private → opts.sessionId = some hook →
        st.sessionId = none →
        willSendResponse opts st rc = WriteOutcome.skippedNullSession)
    ∧ (∀ hook sid, p.scope = CacheScope.Private → opts.sessionId = some hook →
        st.sessionId = some sid →
        willSendResponse opts st rc = WriteOutcome.wrote
          (prefixedKey (cacheKeyString base
            { sessionMode := SessionMode.Private, sessionId := some sid }))
          (Json.stringify (Json.obj [("data", Json.obj d)])) p.maxAge)
    ∧ (p.scope = CacheScope.Public → st.sessionId = none →
        willSendResponse opts st rc = WriteOutcome.wrote
          (prefixedKey (cacheKeyString base { sessionMode := SessionMode.NoSession }))
          (Json.stringify (Json.obj [("data", Json.obj d)])) p.maxAge)
    ∧ (∀ sid, p.scope = CacheScope.Public → st.sessionId = some sid →
        willSendResponse opts st rc = WriteOutcome.wrote
          (prefixedKey (cacheKeyString base
            { sessionMode := SessionMode.AuthenticatedPublic }))
          (Json.stringify (Json.obj [("data", Json.obj d)])) p.maxAge) := by
  have hgate : willSendResponse opts st rc =
      (if p.scope = CacheScope.Private then
        match opts.sessionId with
        | none => WriteOutcome.skippedNoSessionIdHook
        | some _ =>
          match st.sessionId with
          | none => WriteOutcome.skippedNullSession
          | some sid =>
            WriteOutcome.wrote
              (prefixedKey (cacheKeyString base
                { sessionMode := SessionMode.Private, sessionId := some sid }))
              (Json.stringify (Json.obj [("data", Json.obj d)])) p.maxAge
      else
        WriteOutcome.wrote
          (prefixedKey (cacheKeyString base
            { sessionMode := if st.sessionId = none then SessionMode.NoSession
                             else SessionMode.AuthenticatedPublic }))
          (Json.stringify (Json.obj [("data", Json.obj d)])) p.maxAge) := by
    unfold willSendResponse
    rw [if_neg (by simp [hq]), if_neg (by simp [hsw]), if_neg (by simp [herr])]
    simp only [hdata, hpol]
    rw [if_neg (by omega : ¬ p.maxAge ≤ 0)]
    simp only [hbase]
  refine ⟨?_, ?_, ?_, ?_, ?_⟩
  · intro hscope hsid
    rw [hgate, if_pos hscope]
    simp only [hsid]
  · intro hook hscope hsid hstid
    rw [hgate, if_pos hscope]
    simp only [hsid, hstid]
  · intro hook sid hscope hsid hstid
    rw [hgate, if_pos hscope]
    simp only [hsid, hstid]
  · intro hscope hstid
    rw [hgate, if_neg (by simp [hscope]), hstid]
    simp
  · intro sid hscope hstid
    rw [hgate, if_neg (by simp [hscope]), hstid]
    simp

/-- Claim C1: private isolation. Given a response cached by the write
path under `\x7b Private, sessionId = A \x7d`, any executor run whose resolved
session id is not `A` — a different session `B` or null — is entirely
unaffected by that cache entry (first conjunct: same state, reads and
result as without the entry), provided the written key collides with none
of that run's lookup keys (`hnc`). The remaining conjuncts justify `hnc`
up to hash collision resistance: the written key is the hash of the
serialized `\x7b Private, A \x7d` key object (second conjunct), and that
object differs from the serialized key object of every `\x7b Private, B \x7d`
(`B ≠ A`), `NoSession` and `AuthenticatedPublic` lookup, over any base
keys — so equal hashes would be a SHA-256 collision. -/
theorem c1_private_isolation
    (optsW : Options) (stW : RequestState) (rcW : GraphQLRequestContext)
    (p : CachePolicy) (A k val : String) (ttl : Int)
    (opts : Options) (store : Store) (rc : GraphQLRequestContext) (v : Json)
    (hw : willSendResponse optsW stW rcW = WriteOutcome.wrote k val ttl)
    (hp : rcW.overallCachePolicy = some p)
    (hpriv : p.scope = CacheScope.Private)
    (hA : stW.sessionId = some A)
    (hsess : resolvedSessionId opts rc ≠ some A)
    (hnc : k ∉ executorLookupKeys opts rc) :
    executor opts (Store.set store k v) rc = executor opts store rc
    ∧ (∃ bW, stW.baseCacheKey = some bW ∧
        k = prefixedKey (cacheKeyString bW
          { sessionMode := SessionMode.Private, sessionId := some A }))
    ∧ (∀ (b1 b2 : BaseCacheKey) (B : String), B ≠ A →
        cacheKeyJson b1 { sessionMode := SessionMode.Private, sessionId := some A } ≠
        cacheKeyJson b2 { sessionMode := SessionMode.Private, sessionId := some B })
    ∧ (∀ b1 b2 : BaseCacheKey,
        cacheKeyJson b1 { sessionMode := SessionMode.Private, sessionId := some A } ≠
        cacheKeyJson b2 { sessionMode := SessionMode.NoSession })
    ∧ (∀ b1 b2 : BaseCacheKey,
        cacheKeyJson b1 { sessionMode := SessionMode.Private, sessionId := some A } ≠
        cacheKeyJson b2 { sessionMode := SessionMode.AuthenticatedPublic }) := by
  refine ⟨executor_frame opts store rc k v hnc, ?_, ?_, ?_, ?_⟩
  · obtain ⟨-, -, -, d, hd, p', hp', -, -, -, bW, hbW, hdisj⟩ :=
      willSendResponse_wrote_inversion optsW stW rcW k val ttl hw
    have hpp : p' = p := Option.some_inj.mp (hp'.symm.trans hp)
    rcases hdisj with ⟨hsc, -, sid, hsid, hk⟩ | ⟨hsc, -⟩
    · have hsA : sid = A := Option.some_inj.mp (hsid.symm.trans hA)
      exact ⟨bW, hbW, hsA ▸ hk⟩
    · rw [hpp] at hsc
      exact absurd hpriv hsc
  · intro b1 b2 B hBA h
    obtain ⟨-, hc⟩ := cacheKeyJson_inj h
    simp only [ContextualCacheKey.mk.injEq, Option.some.injEq, true_and] at hc
    exact hBA hc.symm
  · intro b1 b2 h
    obtain ⟨-, hc⟩ := cacheKeyJson_inj h
    simp at hc
  · intro b1 b2 h
    obtain ⟨-, hc⟩ := cacheKeyJson_inj h
    simp at hc

/-- The hook both C8 fixtures use: a predicate that yields its boolean
asynchronously, as a promise resolving to `false`. -/
def promiseFalseHook : GraphQLRequestContext → ValueOrPromise Bool :=
  fun _ => ValueOrPromise.promise false

/-- Options configuring `shouldReadFromCache` and `shouldWriteToCache` to
the promise-of-`false` predicate. -/
def c8Options : Options :=
  { shouldReadFromCache := some promiseFalseHook
    shouldWriteToCache := some promiseFalseHook }

/-- A cacheable anonymous query request for exercising the unawaited
predicates. -/
def c8Request : GraphQLRequestContext :=
  { request := { «variables» := none }
    documentText := "\x7bfield\x7d"
    operationName := none
    operation := OperationType.query
    response := { data := some [("field", Json.num 1)], errors := none, extensions := none }
    overallCachePolicy := some { scope := CacheScope.Public, maxAge := 60 } }

/-- Claim C8 (refuted — code bug): the source does not `await` the
should-read/should-write predicates; it negates the call's raw value, and
a pending promise is always truthy. So a predicate that asynchronously
yields `false` (resolved value `false`, first conjunct) fails to skip
either path: the skip tests still come out false (second and third
conjuncts), the executor still performs a store read (fourth), and the
write path still produces a `wrote` outcome (fifth) — contradicting both
the spec and the hooks' own `ValueOrPromise<boolean>` documentation. -/
theorem c8_unawaited_predicates :
    (promiseFalseHook c8Request).await = false
    ∧ skipsRead c8Options c8Request = false
    ∧ skipsWrite c8Options c8Request = false
    ∧ (executor c8Options ([] : Store) c8Request).reads ≠ []
    ∧ ∃ k val ttl,
        willSendResponse c8Options
          { sessionId := none
            baseCacheKey := some (computedBaseCacheKey c8Options c8Request) }
          c8Request = WriteOutcome.wrote k val ttl := by
  refine ⟨rfl, rfl, rfl, ?_, ⟨_, _, _, rfl⟩⟩
  have hr : (executor c8Options ([] : Store) c8Request).reads =
      [prefixedKey (cacheKeyString (computedBaseCacheKey c8Options c8Request)
        { sessionMode := SessionMode.NoSession })] := rfl
  rw [hr]
  simp

/-- The lower-case hex digits, the only characters `hexChar` emits. -/
def isLowerHexDigit (c : Char) : Bool :=
  c.isDigit || ['a', 'b', 'c', 'd', 'e', 'f'].contains c

/-- `hexChar` only emits lower-case hex digits. -/
theorem isLowerHexDigit_hexChar (n : Nat) : isLowerHexDigit (hexChar n) = true := by
  unfold hexChar
  split <;> decide

/-- A rendered digest is always exactly 64 characters. -/
theorem digestHex_length (st : Hash8) : (digestHex st).length = 64 := by
  obtain ⟨a, b, c, d, e, f, g, h⟩ := st
  simp [digestHex, word32Hex, String.length]

/-- Every character of a rendered digest is a lower-case hex digit. -/
theorem digestHex_data_all (st : Hash8) :
    (digestHex st).data.all isLowerHexDigit = true := by
  obtain ⟨a, b, c, d, e, f, g, h⟩ := st
  simp [digestHex, word32Hex, isLowerHexDigit_hexChar]

/-- The digest is always exactly 64 characters, whatever the input. -/
theorem sha_length (s : String) : (sha s).length = 64 := digestHex_length _

/-- Every character of a digest is a lower-case hex digit. -/
theorem sha_data_all (s : String) : (sha s).data.all isLowerHexDigit = true :=
  digestHex_data_all _

/-- Claim C9: the key serializer is deterministic — two cache keys whose
fields (document text, operation name, variables in order, extra data,
session mode, session id) are equal serialize to the same store key — and
its output is a fixed-length digest of 64 lower-case hex characters
regardless of input size. -/
theorem c9_serializer_determinism :
    (∀ (b1 b2 : BaseCacheKey) (c1 c2 : ContextualCacheKey),
      b1.documentText = b2.documentText → b1.operationName = b2.operationName →
      b1.«variables» = b2.«variables» → b1.extra = b2.extra →
      c1.sessionMode = c2.sessionMode → c1.sessionId = c2.sessionId →
      cacheKeyString b1 c1 = cacheKeyString b2 c2)
    ∧ ∀ (b : BaseCacheKey) (c : ContextualCacheKey),
        (cacheKeyString b c).length = 64 ∧
        (cacheKeyString b c).data.all isLowerHexDigit = true := by
  constructor
  · intro b1 b2 c1 c2 h1 h2 h3 h4 h5 h6
    have hb : b1 = b2 := by cases b1; cases b2; simp_all
    have hcc : c1 = c2 := by cases c1; cases c2; simp_all
    rw [hb, hcc]
  · intro b c
    exact ⟨sha_length _, sha_data_all _⟩

/-! ## Concrete fixtures and witnesses

Closed instances exercising each hypothesis-bearing theorem on concrete
inputs. -/

/-- A concrete base cache key, matching what the executor computes for
`sampleRequest` under options with no extra-data hook. -/
def sampleBase : BaseCacheKey :=
  { documentText := "\x7bme\x7d"
    operationName := some "Q"
    «variables» := [("id", Json.num 7)]
    extra := Json.null }

/-- A cacheable anonymous query request with a `Public, maxAge 60`
policy. -/
def sampleRequest : GraphQLRequestContext :=
  { request := { «variables» := some [("id", Json.num 7)] }
    documentText := "\x7bme\x7d"
    operationName := some "Q"
    operation := OperationType.query
    response := { data := some [("me", Json.str "public")], errors := none, extensions := none }
    overallCachePolicy := some { scope := CacheScope.Public, maxAge := 60 } }

/-- The same request shape with a `Private, maxAge 300` policy and
private payload. -/
def privateRequest : GraphQLRequestContext :=
  { request := { «variables» := some [("id", Json.num 7)] }
    documentText := "\x7bme\x7d"
    operationName := some "Q"
    operation := OperationType.query
    response := { data := some [("me", Json.str "priv")], errors := none, extensions := none }
    overallCachePolicy := some { scope := CacheScope.Private, maxAge := 300 } }

/-- `Object.create(null)`: no hooks configured. -/
def emptyOptions : Options := {}

/-- Options whose session-id hook answers `"alice"`. -/
def aliceOptions : Options :=
  { sessionId := some fun _ => ValueOrPromise.value (some "alice") }

/-- Options whose session-id hook answers `"bob"`. -/
def bobOptions : Options :=
  { sessionId := some fun _ => ValueOrPromise.value (some "bob") }

/-- Options whose should-read hook answers a synchronous `false`. -/
def noReadOptions : Options :=
  { shouldReadFromCache := some fun _ => ValueOrPromise.value false }

/-- Post-read-path state of an anonymous request over `sampleBase`. -/
def publicState : RequestState :=
  { sessionId := none, baseCacheKey := some sampleBase }

/-- Post-read-path state of Alice's session over `sampleBase`. -/
def aliceState : RequestState :=
  { sessionId := some "alice", baseCacheKey := some sampleBase }

/-- State in which the read path never ran: both fields still null. -/
def noBaseState : RequestState := {}

/-- The store key of Alice's private entry over `sampleBase`. -/
def c1Key : String :=
  prefixedKey (cacheKeyString sampleBase
    { sessionMode := SessionMode.Private, sessionId := some "alice" })

/-- Witness for C1 at concrete inputs: Alice's private write (key
`c1Key`) is invisible to Bob's executor run — hypotheses discharged by
`rfl` and by computing the three SHA-256 digests involved. -/
theorem c1_private_isolation_witness :
    executor bobOptions (Store.set ([] : Store) c1Key (Json.str "x")) sampleRequest
      = executor bobOptions ([] : Store) sampleRequest :=
  (c1_private_isolation aliceOptions aliceState privateRequest
    ⟨CacheScope.Private, 300⟩ "alice" c1Key
    (Json.stringify (Json.obj [("data", Json.obj [("me", Json.str "priv")])])) 300
    bobOptions ([] : Store) sampleRequest (Json.str "x")
    rfl rfl rfl rfl (by decide) (by decide)).1

/-- Witness for C2 at concrete inputs: on the sample anonymous query the
executor performs at most two reads. -/
theorem c2_lookup_algorithm_witness :
    (executor emptyOptions ([] : Store) sampleRequest).reads.length ≤ 2 :=
  (c2_lookup_algorithm emptyOptions ([] : Store) sampleRequest rfl rfl).2.2

/-- Witness for C3 at concrete inputs: Alice's private cacheable response
is written under the `\x7b Private, "alice" \x7d` key. -/
theorem c3_write_key_selection_witness :
    willSendResponse aliceOptions aliceState privateRequest = WriteOutcome.wrote
      (prefixedKey (cacheKeyString sampleBase
        { sessionMode := SessionMode.Private, sessionId := some "alice" }))
      (Json.stringify (Json.obj [("data", Json.obj [("me", Json.str "priv")])])) 300 :=
  (c3_write_key_selection aliceOptions aliceState privateRequest
    [("me", Json.str "priv")] ⟨CacheScope.Private, 300⟩ sampleBase
    rfl rfl rfl rfl rfl (by decide) rfl).2.2.1
    (fun _ => ValueOrPromise.value (some "alice")) "alice" rfl rfl rfl

/-- Witness for C4 at concrete inputs: the sample request's write implies
the gate conditions. -/
theorem c4_cacheability_gate_witness :
    sampleRequest.response.errors = none
    ∧ (∃ d, sampleRequest.response.data = some d)
    ∧ ∃ p, sampleRequest.overallCachePolicy = some p ∧ 0 < p.maxAge :=
  (c4_cacheability_gate emptyOptions publicState sampleRequest).1
    (prefixedKey (cacheKeyString sampleBase { sessionMode := SessionMode.NoSession }))
    (Json.stringify (Json.obj [("data", Json.obj [("me", Json.str "public")])])) 60 rfl

/-- Witness for C5 at concrete inputs: a cacheable response with the
per-request state still at its initial nulls makes the write path
throw. -/
theorem c5_base_key_invariant_witness :
    willSendResponse emptyOptions noBaseState sampleRequest = WriteOutcome.threw :=
  c5_base_key_invariant emptyOptions noBaseState sampleRequest
    [("me", Json.str "public")] ⟨CacheScope.Public, 60⟩
    rfl rfl rfl rfl rfl (by decide) rfl

/-- Witness for C6 at concrete inputs: the sample write's stored value is
the serialization of `\x7b data \x7d` alone. -/
theorem c6_only_data_persisted_witness :
    ∃ d, sampleRequest.response.data = some d ∧
      Json.stringify (Json.obj [("data", Json.obj [("me", Json.str "public")])]) =
        Json.stringify (Json.obj [("data", Json.obj d)]) ∧
      sampleRequest.response.errors = none :=
  c6_only_data_persisted emptyOptions publicState sampleRequest
    (prefixedKey (cacheKeyString sampleBase { sessionMode := SessionMode.NoSession }))
    (Json.stringify (Json.obj [("data", Json.obj [("me", Json.str "public")])])) 60 rfl

/-- Witness for C7 at concrete inputs: a synchronous `false` from the
should-read hook skips the store but leaves the state populated. -/
theorem c7_should_read_skip_witness :
    executor noReadOptions ([] : Store) sampleRequest =
      { sessionId := resolvedSessionId noReadOptions sampleRequest
        baseCacheKey := some (computedBaseCacheKey noReadOptions sampleRequest)
        reads := []
        result := none } :=
  c7_should_read_skip noReadOptions ([] : Store) sampleRequest
    (fun _ => ValueOrPromise.value false) rfl rfl rfl

/-- Witness for C9 at concrete inputs: the serializer agrees with itself
on equal fields, and one concrete key has the 64-character shape. -/
theorem c9_serializer_determinism_witness :
    cacheKeyString sampleBase { sessionMode := SessionMode.NoSession } =
      cacheKeyString sampleBase { sessionMode := SessionMode.NoSession }
    ∧ (cacheKeyString sampleBase { sessionMode := SessionMode.NoSession }).length = 64 :=
  ⟨c9_serializer_determinism.1 sampleBase sampleBase
      { sessionMode := SessionMode.NoSession } { sessionMode := SessionMode.NoSession }
      rfl rfl rfl rfl rfl rfl,
   (c9_serializer_determinism.2 sampleBase { sessionMode := SessionMode.NoSession }).1⟩

/-- Witness for C10 at concrete inputs: the executor snapshots the sample
request's variables into the base key. -/
theorem c10_variables_snapshot_witness :
    (executor emptyOptions ([] : Store) sampleRequest).baseCacheKey = some
      { documentText := sampleRequest.documentText
        operationName := sampleRequest.operationName
        «variables» := sampleRequest.request.«variables».getD []
        extra := resolvedExtraCacheKeyData emptyOptions sampleRequest } :=
  (c10_variables_snapshot emptyOptions ([] : Store) noBaseState sampleRequest rfl).1

end ResponseCache
